import Mathlib

/-!
Shallow embedding of the design-pattern canvas game (TypeScript sources:
Game.ts, Entity.ts, Loop.ts, Mouse.ts, index.ts).

Numbers: JavaScript numeric state (positions, velocities, radii, the timer
and the score) is modelled with exact arithmetic (ℚ for geometric values,
ℤ for the two counters).  The only numeric operations the game performs are
addition, negation, multiplication by the literal 1.1 and comparison, so the
rational model follows the source expression for expression.

Randomness: `Math.random()`-driven choices (shape kind, color string, initial
velocity of a spawned shape) are passed in explicitly as a `RandomChoice`
record, so every operation is a pure function of state and choices.

Rendering, audio and DOM access have no game-logic effect except the
`colorOffset` field; they are therefore modelled only through the state
fields they touch.
-/

/-- The three concrete `Entity` subclasses of Entity.ts, as a tag. -/
inductive ShapeKind where
  | circle
  | square
  | triangle
deriving DecidableEq, Repr

/-- `ShapeClass.name` of Game.ts `addEntity`: the class name string. -/
def ShapeKind.className : ShapeKind → String
  | ShapeKind.circle => "CircleEntity"
  | ShapeKind.square => "SquareEntity"
  | ShapeKind.triangle => "TriangleEntity"

/-- The `Entity` class of Entity.ts: name, position `(x, y)`, radius, color,
velocity `(dx, dy)`, plus the concrete-subclass tag (the subclasses differ
only in `draw`, which has no game-logic effect). -/
structure Entity where
  kind : ShapeKind
  name : String
  x : ℚ
  y : ℚ
  radius : ℚ
  color : String
  dx : ℚ
  dy : ℚ
deriving DecidableEq, Repr

/-- `Entity.update(canvasWidth, canvasHeight)`: integrate position by
velocity, then flip `dx` when the post-move x touches or passes the
left/right bound, and independently flip `dy` against top/bottom. -/
def Entity.update (e : Entity) (canvasWidth canvasHeight : ℚ) : Entity :=
  let x := e.x + e.dx
  let y := e.y + e.dy
  let dx := if x - e.radius ≤ 0 ∨ canvasWidth ≤ x + e.radius then -e.dx else e.dx
  let dy := if y - e.radius ≤ 0 ∨ canvasHeight ≤ y + e.radius then -e.dy else e.dy
  { e with x := x, y := y, dx := dx, dy := dy }

/-- `Entity.increaseSpeed()`: `dx *= 1.1; dy *= 1.1`. -/
def Entity.increaseSpeed (e : Entity) : Entity :=
  { e with dx := e.dx * (11 / 10 : ℚ), dy := e.dy * (11 / 10 : ℚ) }

/-- The hit test of `Game.handleMouseClick`:
`Math.sqrt((x - e.x) ** 2 + (y - e.y) ** 2) <= e.radius`.
Over the reals, with the squared distance nonnegative, the square-root
comparison is equivalent to `0 ≤ radius ∧ dist² ≤ radius²`, which avoids a
noncomputable square root. -/
def Entity.hit (e : Entity) (x y : ℚ) : Bool :=
  decide (0 ≤ e.radius ∧ (x - e.x) ^ 2 + (y - e.y) ^ 2 ≤ e.radius ^ 2)

/-- `Array.prototype.findIndex`, returning `none` in place of `-1`. -/
def findIndex {α : Type} (p : α → Bool) : List α → Option Nat
  | [] => none
  | a :: as => if p a then some 0 else (findIndex p as).map (fun i => i + 1)

/-- `Array.prototype.splice(i, 1)`: remove the element at index `i`. -/
def spliceOne {α : Type} : List α → Nat → List α
  | [], _ => []
  | _ :: as, 0 => as
  | a :: as, n + 1 => a :: spliceOne as n

/-- The random draws consumed by one add-to-empty-space click:
the shape class picked in `addEntity`, the color string from
`getRandomColor`, and the `Math.random() * 4 - 2` velocity components of the
`Entity` constructor. -/
structure RandomChoice where
  kind : ShapeKind
  color : String
  dx : ℚ
  dy : ℚ

/-- The entity built by `Game.addEntity(x, y)`:
`new ShapeClass(name, x, y, 20, color)` with the constructor's random
velocity. -/
def mkShape (r : RandomChoice) (x y : ℚ) : Entity :=
  { kind := r.kind, name := r.kind.className, x := x, y := y,
    radius := 20, color := r.color, dx := r.dx, dy := r.dy }

/-- Canvas width fixed at construction: `this.canvas.width = 512`. -/
def canvasWidth : ℚ := 512

/-- Canvas height fixed at construction: `this.canvas.height = 512`. -/
def canvasHeight : ℚ := 512

/-- The game-logic state of the `Game` singleton: entity collection, score,
timer, game-over flag and the background animation phase. -/
structure GameState where
  entities : List Entity
  score : ℤ
  timer : ℤ
  isGameOver : Bool
  colorOffset : ℚ
deriving DecidableEq, Repr

/-- Field initializers of the `Game` constructor: empty collection,
score 0, timer 120, not game over, colorOffset 0. -/
def GameState.init : GameState :=
  { entities := [], score := 0, timer := 120, isGameOver := false,
    colorOffset := 0 }

/-- The `setInterval(..., 1000)` callback of the `Game` constructor:
while not game over and timer > 0, decrement the timer and, when the
decremented timer is divisible by 30, call `increaseSpeed` on every entity;
otherwise, when the timer is ≤ 0, set the game-over flag. -/
def GameState.tick (g : GameState) : GameState :=
  if g.isGameOver = false ∧ 0 < g.timer then
    { g with timer := g.timer - 1,
             entities := if (g.timer - 1) % 30 = 0
                         then g.entities.map Entity.increaseSpeed
                         else g.entities }
  else if g.timer ≤ 0 then
    { g with isGameOver := true }
  else g

/-- `Game.update()`: no-op when game over, otherwise `update` every entity
with the canvas bounds. -/
def GameState.update (g : GameState) : GameState :=
  if g.isGameOver then g
  else { g with
         entities := g.entities.map (fun e => e.update canvasWidth canvasHeight) }

/-- `Game.draw()`: the only game-state effect of rendering is
`this.colorOffset += 0.005`. -/
def GameState.draw (g : GameState) : GameState :=
  { g with colorOffset := g.colorOffset + 5 / 1000 }

/-- `Game.addEntity(x, y)`: push the freshly constructed shape. -/
def GameState.addEntity (g : GameState) (x y : ℚ) (r : RandomChoice) : GameState :=
  { g with entities := g.entities ++ [mkShape r x y] }

/-- `Game.handleMouseClick(x, y)`: no-op when game over; otherwise find the
first entity hit by the click; when found, splice it out and add 5 to the
score; when not found, add a new entity at the click point and add 1 to the
score. -/
def GameState.handleMouseClick (g : GameState) (x y : ℚ) (r : RandomChoice) :
    GameState :=
  if g.isGameOver then g
  else
    match findIndex (fun e => e.hit x y) g.entities with
    | some i => { g with entities := spliceOne g.entities i, score := g.score + 5 }
    | none =>
      let g1 := g.addEntity x y r
      { g1 with score := g1.score + 1 }

/-- The operations the single-threaded host can interleave on the game
state: a ticker invocation, a frame update, a frame draw, or a click. -/
inductive Op where
  | tick
  | update
  | draw
  | click (x y : ℚ) (r : RandomChoice)

/-- One operation applied to the state. -/
def GameState.step (g : GameState) : Op → GameState
  | Op.tick => g.tick
  | Op.update => g.update
  | Op.draw => g.draw
  | Op.click x y r => g.handleMouseClick x y r

/-- A finite interleaving of operations applied in order. -/
def GameState.run (g : GameState) : List Op → GameState
  | [] => g
  | o :: os => (g.step o).run os

/-- States reachable from the freshly constructed game. -/
def Reachable (g : GameState) : Prop :=
  ∃ ops : List Op, GameState.run GameState.init ops = g

/-- The state after `n` ticker invocations from the fresh game, with no
other interaction. -/
def ticks (n : Nat) : GameState :=
  GameState.tick^[n] GameState.init

/-- The `Loop` class of Loop.ts, observed through its running flag, the
number of `requestAnimationFrame` callbacks currently queued, and the
cumulative counts of `game.update()` and `game.draw()` invocations. -/
structure LoopState where
  isRunning : Bool
  pending : Nat
  updates : Nat
  draws : Nat
deriving DecidableEq, Repr

/-- The body of `Loop.step()`: when the flag is set, invoke `update`, then
`draw`, then queue one more callback via `requestAnimationFrame`; when the
flag is clear, return at once. -/
def LoopState.stepRun (s : LoopState) : LoopState :=
  if s.isRunning then
    { s with updates := s.updates + 1, draws := s.draws + 1,
             pending := s.pending + 1 }
  else s

/-- `Loop.start()`: unconditionally set the flag, then synchronously run
`step()`. -/
def LoopState.start (s : LoopState) : LoopState :=
  LoopState.stepRun { s with isRunning := true }

/-- One queued `requestAnimationFrame` callback firing: it is consumed from
the queue and behaves as `step()`. -/
def LoopState.fireOne (s : LoopState) : LoopState :=
  LoopState.stepRun { s with pending := s.pending - 1 }

/-- One animation frame: every callback queued at the start of the frame
fires. -/
def LoopState.frame (s : LoopState) : LoopState :=
  LoopState.fireOne^[s.pending] s

/-- A fresh `Loop` (constructor: `isRunning = false`, nothing queued, no
invocations yet). -/
def LoopState.initial : LoopState :=
  { isRunning := false, pending := 0, updates := 0, draws := 0 }

/-- The loop as the `Game` constructor leaves it: `this.loop.start()`. -/
def gameConstructorLoop : LoopState := LoopState.initial.start

/-- The loop after the entry point's `game.start()`, which calls
`this.loop.start()` a second time. -/
def entryPointLoop : LoopState := gameConstructorLoop.start

set_option maxRecDepth 4000

/-! ## Helper lemmas -/

theorem findIndex_eq_none {α : Type} (p : α → Bool) (l : List α)
    (h : ∀ e ∈ l, p e = false) : findIndex p l = none := by
  induction l with
  | nil => rfl
  | cons a as ih =>
    have ha : p a = false := h a (List.mem_cons_self a as)
    have ih' := ih (fun e he => h e (List.mem_cons_of_mem a he))
    simp [findIndex, ha, ih']

theorem findIndex_isSome {α : Type} (p : α → Bool) (l : List α)
    (h : ∃ e ∈ l, p e = true) : ∃ i, findIndex p l = some i := by
  induction l with
  | nil => obtain ⟨e, he, _⟩ := h; cases he
  | cons a as ih =>
    by_cases hpa : p a = true
    · exact ⟨0, by simp [findIndex, hpa]⟩
    · obtain ⟨e, he, hpe⟩ := h
      rcases List.mem_cons.mp he with rfl | he'
      · exact absurd hpe hpa
      · obtain ⟨i, hi⟩ := ih ⟨e, he', hpe⟩
        exact ⟨i + 1, by simp [findIndex, hpa, hi]⟩

theorem findIndex_spec {α : Type} (p : α → Bool) :
    ∀ (l : List α) (i : Nat), findIndex p l = some i →
      ∃ e, l[i]? = some e ∧ p e = true ∧ ∀ e' ∈ l.take i, p e' = false := by
  intro l
  induction l with
  | nil => intro i h; simp [findIndex] at h
  | cons a as ih =>
    intro i h
    by_cases hpa : p a = true
    · simp [findIndex, hpa] at h
      subst h
      exact ⟨a, by simp, hpa, by simp⟩
    · rw [Bool.not_eq_true] at hpa
      simp [findIndex, hpa] at h
      obtain ⟨j, hj, hji⟩ := h
      obtain ⟨e, he, hpe, hprev⟩ := ih j hj
      subst hji
      refine ⟨e, by simpa using he, hpe, ?_⟩
      intro e' he'
      rw [List.take_succ_cons] at he'
      rcases List.mem_cons.mp he' with rfl | h2
      · exact hpa
      · exact hprev e' h2

theorem spliceOne_eq_take_drop {α : Type} :
    ∀ (l : List α) (i : Nat), spliceOne l i = l.take i ++ l.drop (i + 1) := by
  intro l
  induction l with
  | nil => intro i; cases i <;> rfl
  | cons a as ih =>
    intro i
    cases i with
    | zero => simp [spliceOne]
    | succ n => simp [spliceOne, ih n]

theorem length_spliceOne {α : Type} :
    ∀ (l : List α) (i : Nat), i < l.length →
      (spliceOne l i).length + 1 = l.length := by
  intro l
  induction l with
  | nil => intro i h; exact absurd h (Nat.not_lt_zero i)
  | cons a as ih =>
    intro i h
    cases i with
    | zero => simp [spliceOne]
    | succ n =>
      have := ih n (Nat.lt_of_succ_lt_succ h)
      simp only [spliceOne, List.length_cons]
      omega

/-- The timer and the game-over flag along the no-interaction ticker trace:
through the first 120 ticks the game is still Playing and the timer counts
`120 - n`. -/
theorem ticks_timer_spec : ∀ n : Nat, n ≤ 120 →
    (ticks n).timer = 120 - (n : ℤ) ∧ (ticks n).isGameOver = false := by
  intro n
  induction n with
  | zero => intro _; exact ⟨rfl, rfl⟩
  | succ m ih =>
    intro hm
    obtain ⟨ht, hgo⟩ := ih (Nat.le_of_succ_le hm)
    have hpos : 0 < (ticks m).timer := by
      rw [ht]
      have : (m : ℤ) < 120 := by exact_mod_cast Nat.lt_of_succ_le hm
      omega
    have hstep : ticks (m + 1) = GameState.tick (ticks m) := by
      simp [ticks, Function.iterate_succ_apply']
    rw [hstep]
    constructor
    · simp only [GameState.tick, hgo, hpos, and_self, if_true, true_and]
      rw [ht]
      push_cast
      ring
    · simp only [GameState.tick, hgo, hpos, and_self, if_true, true_and]

/-! ## Claims -/

/-- Claim C1, counterexample: after exactly 120 ticker invocations from the
fresh game, the timer has reached 0 but `isGameOver` is still false — the
transition to GameOver does not happen on the tick in which the timer
reaches 0. -/
theorem C1_counterexample :
    (ticks 120).timer = 0 ∧ (ticks 120).isGameOver = false := by
  constructor <;> decide

/-- Claim C1 (amended): the timer reaches 0 on the 120th ticker invocation
with the session still Playing; `isGameOver` becomes true on the following
(121st) invocation; and once true it never reverts to false under any
further tick. -/
theorem C1_gameOver_after_121_ticks :
    (ticks 120).timer = 0 ∧ (ticks 120).isGameOver = false ∧
    (ticks 121).isGameOver = true ∧
    ∀ g : GameState, g.isGameOver = true → (GameState.tick g).isGameOver = true := by
  refine ⟨by decide, by decide, by decide, ?_⟩
  intro g h
  by_cases ht : g.timer ≤ 0 <;> simp [GameState.tick, h, ht]

/-- Claim C1, witness for the amended theorem's universally quantified
conjunct at a concrete game-over state. -/
theorem C1_witness :
    (GameState.tick { GameState.init with isGameOver := true }).isGameOver = true :=
  C1_gameOver_after_121_ticks.2.2.2 { GameState.init with isGameOver := true } rfl

/-- Claim C2: after one `update(w, h)`, the position equals the prior
position plus the velocity; then each velocity component is negated exactly
when the post-move leading edge has reached or passed the corresponding
bound, independently per axis (so a corner contact flips both), and is
unchanged otherwise; the radius is untouched. -/
theorem C2_advance_bounce (e : Entity) (w h : ℚ) :
    (e.update w h).x = e.x + e.dx ∧
    (e.update w h).y = e.y + e.dy ∧
    ((e.update w h).x - e.radius ≤ 0 ∨ w ≤ (e.update w h).x + e.radius →
      (e.update w h).dx = -e.dx) ∧
    (¬((e.update w h).x - e.radius ≤ 0 ∨ w ≤ (e.update w h).x + e.radius) →
      (e.update w h).dx = e.dx) ∧
    ((e.update w h).y - e.radius ≤ 0 ∨ h ≤ (e.update w h).y + e.radius →
      (e.update w h).dy = -e.dy) ∧
    (¬((e.update w h).y - e.radius ≤ 0 ∨ h ≤ (e.update w h).y + e.radius) →
      (e.update w h).dy = e.dy) ∧
    (e.update w h).radius = e.radius := by
  unfold Entity.update
  dsimp only
  refine ⟨rfl, rfl, ?_, ?_, ?_, ?_, rfl⟩
  · intro hc; rw [if_pos hc]
  · intro hc; rw [if_neg hc]
  · intro hc; rw [if_pos hc]
  · intro hc; rw [if_neg hc]

/-- Claim C2, witness: a shape at the top-left corner has both velocity
components flipped in the same `update` call. -/
theorem C2_witness :
    (({ kind := ShapeKind.circle, name := "CircleEntity", x := 0, y := 0,
        radius := 1, color := "#FFFFFF", dx := -1, dy := -1 : Entity }).update
          512 512).dx = 1 ∧
    (({ kind := ShapeKind.circle, name := "CircleEntity", x := 0, y := 0,
        radius := 1, color := "#FFFFFF", dx := -1, dy := -1 : Entity }).update
          512 512).dy = 1 := by
  have hx := (C2_advance_bounce
    { kind := ShapeKind.circle, name := "CircleEntity", x := 0, y := 0,
      radius := 1, color := "#FFFFFF", dx := -1, dy := -1 } 512 512).2.2.1
    (by simp only [Entity.update]; norm_num)
  have hy := (C2_advance_bounce
    { kind := ShapeKind.circle, name := "CircleEntity", x := 0, y := 0,
      radius := 1, color := "#FFFFFF", dx := -1, dy := -1 } 512 512).2.2.2.2.1
    (by simp only [Entity.update]; norm_num)
  rw [hx, hy]
  norm_num

/-- A concrete shape used by the click-test witnesses. -/
def hitProbeEntity : Entity :=
  { kind := ShapeKind.circle, name := "CircleEntity", x := 100, y := 100,
    radius := 20, color := "#00FF00", dx := 1, dy := 1 }

/-- A concrete Playing state holding one shape, used by witnesses. -/
def hitProbeState : GameState :=
  { entities := [hitProbeEntity], score := 0, timer := 120,
    isGameOver := false, colorOffset := 0 }

/-- Concrete random draws used by witnesses. -/
def probeChoice : RandomChoice :=
  { kind := ShapeKind.square, color := "#0A1B2C", dx := 1, dy := -1 }

/-- Claim C3: a click while Playing that hits some shape removes the first
hit shape in collection order (every earlier shape misses), adds exactly 5
to the score, shrinks the collection by exactly 1, and leaves every other
shape in place. -/
theorem C3_click_hit (g : GameState) (x y : ℚ) (r : RandomChoice)
    (hplay : g.isGameOver = false)
    (hhit : ∃ e ∈ g.entities, e.hit x y = true) :
    ∃ (i : Nat) (e : Entity),
      g.entities[i]? = some e ∧ e.hit x y = true ∧
      (∀ e' ∈ g.entities.take i, e'.hit x y = false) ∧
      (g.handleMouseClick x y r).entities
        = g.entities.take i ++ g.entities.drop (i + 1) ∧
      (g.handleMouseClick x y r).score = g.score + 5 ∧
      (g.handleMouseClick x y r).entities.length + 1 = g.entities.length := by
  obtain ⟨i, hfi⟩ := findIndex_isSome (fun e => e.hit x y) g.entities hhit
  obtain ⟨e, hge, hpe, hprev⟩ := findIndex_spec _ g.entities i hfi
  have hlen : i < g.entities.length := by
    by_contra hc
    push_neg at hc
    rw [List.getElem?_eq_none hc] at hge
    cases hge
  refine ⟨i, e, hge, hpe, hprev, ?_, ?_, ?_⟩
  · simp [GameState.handleMouseClick, hplay, hfi, spliceOne_eq_take_drop]
  · simp [GameState.handleMouseClick, hplay, hfi]
  · have hl := length_spliceOne g.entities i hlen
    simpa [GameState.handleMouseClick, hplay, hfi] using hl

/-- Claim C3, witness: clicking the center of the single shape of
`hitProbeState` removes it and scores 5. -/
theorem C3_witness :
    ∃ (i : Nat) (e : Entity),
      hitProbeState.entities[i]? = some e ∧ e.hit 100 100 = true ∧
      (∀ e' ∈ hitProbeState.entities.take i, e'.hit 100 100 = false) ∧
      (hitProbeState.handleMouseClick 100 100 probeChoice).entities
        = hitProbeState.entities.take i ++ hitProbeState.entities.drop (i + 1) ∧
      (hitProbeState.handleMouseClick 100 100 probeChoice).score
        = hitProbeState.score + 5 ∧
      (hitProbeState.handleMouseClick 100 100 probeChoice).entities.length + 1
        = hitProbeState.entities.length :=
  C3_click_hit hitProbeState 100 100 probeChoice rfl
    ⟨hitProbeEntity, by simp [hitProbeState],
      by simp only [Entity.hit, hitProbeEntity, decide_eq_true_eq]; norm_num⟩

/-- Claim C4: a click while Playing that hits no shape appends exactly one
new shape at the click point with radius 20 and a kind among circle, square
and triangle, adds exactly 1 to the score, and modifies no existing
shape. -/
theorem C4_click_miss (g : GameState) (x y : ℚ) (r : RandomChoice)
    (hplay : g.isGameOver = false)
    (hmiss : ∀ e ∈ g.entities, e.hit x y = false) :
    (g.handleMouseClick x y r).entities = g.entities ++ [mkShape r x y] ∧
    (mkShape r x y).x = x ∧ (mkShape r x y).y = y ∧
    (mkShape r x y).radius = 20 ∧
    ((mkShape r x y).kind = ShapeKind.circle ∨
      (mkShape r x y).kind = ShapeKind.square ∨
      (mkShape r x y).kind = ShapeKind.triangle) ∧
    (g.handleMouseClick x y r).score = g.score + 1 ∧
    (g.handleMouseClick x y r).entities.length = g.entities.length + 1 := by
  have hfi := findIndex_eq_none (fun e => e.hit x y) g.entities hmiss
  refine ⟨?_, rfl, rfl, rfl, ?_, ?_, ?_⟩
  · simp [GameState.handleMouseClick, hplay, hfi, GameState.addEntity]
  · cases hk : r.kind <;> simp [mkShape, hk]
  · simp [GameState.handleMouseClick, hplay, hfi, GameState.addEntity]
  · simp [GameState.handleMouseClick, hplay, hfi, GameState.addEntity]

/-- Claim C4, witness: clicking the empty fresh game appends one shape at
the click point and scores 1. -/
theorem C4_witness :
    (GameState.init.handleMouseClick 50 60 probeChoice).entities
      = GameState.init.entities ++ [mkShape probeChoice 50 60] ∧
    (mkShape probeChoice 50 60).x = 50 ∧ (mkShape probeChoice 50 60).y = 60 ∧
    (mkShape probeChoice 50 60).radius = 20 ∧
    ((mkShape probeChoice 50 60).kind = ShapeKind.circle ∨
      (mkShape probeChoice 50 60).kind = ShapeKind.square ∨
      (mkShape probeChoice 50 60).kind = ShapeKind.triangle) ∧
    (GameState.init.handleMouseClick 50 60 probeChoice).score
      = GameState.init.score + 1 ∧
    (GameState.init.handleMouseClick 50 60 probeChoice).entities.length
      = GameState.init.entities.length + 1 :=
  C4_click_miss GameState.init 50 60 probeChoice rfl
    (by intro e he; simp [GameState.init] at he)

/-- A Playing state one tick away from a multiple-of-30 timer value, used
by the C5 witness. -/
def boostProbeState : GameState :=
  { entities := [hitProbeEntity], score := 0, timer := 31,
    isGameOver := false, colorOffset := 0 }

/-- Claim C5: on a Playing tick the difficulty boost (`increaseSpeed` on
every shape) fires exactly when the post-decrement timer is divisible
by 30, and on no other tick; along the no-interaction trace from 120 the
timer is `120 - n` after `n` ticks, so the boost fires at 90, 60, 30 and 0
seconds remaining. -/
theorem C5_boost_on_mod30 (g : GameState)
    (hgo : g.isGameOver = false) (hpos : 0 < g.timer) :
    ((g.timer - 1) % 30 = 0 →
      (GameState.tick g).entities = g.entities.map Entity.increaseSpeed) ∧
    ((g.timer - 1) % 30 ≠ 0 → (GameState.tick g).entities = g.entities) ∧
    (∀ n : Nat, n ≤ 120 → (ticks n).timer = 120 - (n : ℤ)) := by
  refine ⟨?_, ?_, fun n hn => (ticks_timer_spec n hn).1⟩
  · intro hmod
    simp [GameState.tick, hgo, hpos, hmod]
  · intro hmod
    simp [GameState.tick, hgo, hpos, hmod]

/-- Claim C5, witness: a tick at timer 31 (post-decrement 30) boosts every
shape, and after 7 ticks of the fresh game the timer reads 113. -/
theorem C5_witness :
    (GameState.tick boostProbeState).entities
      = boostProbeState.entities.map Entity.increaseSpeed ∧
    (ticks 7).timer = 120 - (7 : ℤ) :=
  ⟨(C5_boost_on_mod30 boostProbeState rfl (by decide)).1 (by decide),
   (C5_boost_on_mod30 boostProbeState rfl (by decide)).2.2 7 (by decide)⟩

/-- The click handler never touches the timer. -/
theorem click_timer_eq (g : GameState) (x y : ℚ) (r : RandomChoice) :
    (g.handleMouseClick x y r).timer = g.timer := by
  unfold GameState.handleMouseClick
  split
  · rfl
  · split <;> simp [GameState.addEntity]

/-- Any single operation keeps the timer nonnegative. -/
theorem step_timer_nonneg (g : GameState) (o : Op) (h : 0 ≤ g.timer) :
    0 ≤ (g.step o).timer := by
  cases o with
  | tick =>
    show 0 ≤ (GameState.tick g).timer
    unfold GameState.tick
    split
    · rename_i hc
      simp only
      omega
    · split <;> simpa
  | update =>
    show 0 ≤ (GameState.update g).timer
    unfold GameState.update
    split <;> simpa
  | draw => simpa [GameState.step, GameState.draw]
  | click x y r =>
    show 0 ≤ (g.handleMouseClick x y r).timer
    rw [click_timer_eq]
    exact h

/-- Any run of operations keeps the timer nonnegative. -/
theorem run_timer_nonneg :
    ∀ (ops : List Op) (g : GameState), 0 ≤ g.timer →
      0 ≤ (GameState.run g ops).timer := by
  intro ops
  induction ops with
  | nil => intro g h; exact h
  | cons o os ih =>
    intro g h
    exact ih (g.step o) (step_timer_nonneg g o h)

/-- Claim C6: the timer starts at 120; a ticker invocation while Playing
decreases it by exactly 1; `update`, `draw` and click handling never change
it; and it is nonnegative in every reachable state. -/
theorem C6_timer_counter :
    GameState.init.timer = 120 ∧
    (∀ g : GameState, g.isGameOver = false → 0 < g.timer →
      (GameState.tick g).timer = g.timer - 1) ∧
    (∀ g : GameState, (GameState.update g).timer = g.timer) ∧
    (∀ g : GameState, (GameState.draw g).timer = g.timer) ∧
    (∀ (g : GameState) (x y : ℚ) (r : RandomChoice),
      (g.handleMouseClick x y r).timer = g.timer) ∧
    (∀ g : GameState, Reachable g → 0 ≤ g.timer) := by
  refine ⟨rfl, ?_, ?_, ?_, click_timer_eq, ?_⟩
  · intro g hgo hpos
    simp [GameState.tick, hgo, hpos]
  · intro g
    unfold GameState.update
    split <;> rfl
  · intro g; rfl
  · intro g hg
    obtain ⟨ops, hops⟩ := hg
    rw [← hops]
    exact run_timer_nonneg ops GameState.init (by decide)

/-- Claim C6, witness: the first tick of the fresh game sets the timer to
119, and the fresh game's timer is nonnegative. -/
theorem C6_witness :
    (GameState.tick GameState.init).timer = GameState.init.timer - 1 ∧
    0 ≤ GameState.init.timer :=
  ⟨C6_timer_counter.2.1 GameState.init rfl (by decide),
   C6_timer_counter.2.2.2.2.2 GameState.init ⟨[], rfl⟩⟩

/-- The click handler either leaves the score unchanged (game over), adds 1
(miss) or adds 5 (hit). -/
theorem click_score_cases (g : GameState) (x y : ℚ) (r : RandomChoice) :
    (g.handleMouseClick x y r).score = g.score ∨
    (g.handleMouseClick x y r).score = g.score + 1 ∨
    (g.handleMouseClick x y r).score = g.score + 5 := by
  unfold GameState.handleMouseClick
  split
  · exact Or.inl rfl
  · split
    · exact Or.inr (Or.inr rfl)
    · exact Or.inr (Or.inl rfl)

/-- Any single operation can only keep or raise the score. -/
theorem step_score_mono (g : GameState) (o : Op) :
    g.score ≤ (g.step o).score := by
  cases o with
  | tick =>
    show g.score ≤ (GameState.tick g).score
    unfold GameState.tick
    split
    · simp
    · split <;> simp
  | update =>
    show g.score ≤ (GameState.update g).score
    unfold GameState.update
    split <;> simp
  | draw => simp [GameState.step, GameState.draw]
  | click x y r =>
    show g.score ≤ (g.handleMouseClick x y r).score
    rcases click_score_cases g x y r with h | h | h <;> rw [h] <;> omega

/-- Any run of operations can only keep or raise the score. -/
theorem run_score_mono :
    ∀ (ops : List Op) (g : GameState), g.score ≤ (GameState.run g ops).score := by
  intro ops
  induction ops with
  | nil => intro g; exact le_refl _
  | cons o os ih =>
    intro g
    exact le_trans (step_score_mono g o) (ih (g.step o))

/-- Claim C7: the score starts at 0; ticker, `update` and `draw` never
change it; a click changes it by exactly 0, +1 or +5; every operation is
monotone on it; and it is nonnegative in every reachable state. -/
theorem C7_score_monotone :
    GameState.init.score = 0 ∧
    (∀ g : GameState, (GameState.tick g).score = g.score) ∧
    (∀ g : GameState, (GameState.update g).score = g.score) ∧
    (∀ g : GameState, (GameState.draw g).score = g.score) ∧
    (∀ (g : GameState) (x y : ℚ) (r : RandomChoice),
      (g.handleMouseClick x y r).score = g.score ∨
      (g.handleMouseClick x y r).score = g.score + 1 ∨
      (g.handleMouseClick x y r).score = g.score + 5) ∧
    (∀ (g : GameState) (o : Op), g.score ≤ (g.step o).score) ∧
    (∀ g : GameState, Reachable g → 0 ≤ g.score) := by
  refine ⟨rfl, ?_, ?_, ?_, click_score_cases, step_score_mono, ?_⟩
  · intro g
    unfold GameState.tick
    split
    · rfl
    · split <;> rfl
  · intro g
    unfold GameState.update
    split <;> rfl
  · intro g; rfl
  · intro g hg
    obtain ⟨ops, hops⟩ := hg
    rw [← hops]
    have h0 : GameState.init.score = 0 := rfl
    have := run_score_mono ops GameState.init
    omega

/-- Claim C7, witness: the monotonicity conjunct at the fresh game under a
tick, and nonnegativity of the fresh game's score. -/
theorem C7_witness :
    GameState.init.score ≤ (GameState.init.step Op.tick).score ∧
    0 ≤ GameState.init.score :=
  ⟨C7_score_monotone.2.2.2.2.2.1 GameState.init Op.tick,
   C7_score_monotone.2.2.2.2.2.2 GameState.init ⟨[], rfl⟩⟩

/-- Claim C8: once `isGameOver` is true, `update()` returns the state
unchanged (so no shape's position or velocity advances) and a click returns
the state unchanged (so score and collection are untouched). -/
theorem C8_frozen_after_gameover (g : GameState) (x y : ℚ) (r : RandomChoice)
    (h : g.isGameOver = true) :
    GameState.update g = g ∧ g.handleMouseClick x y r = g := by
  constructor
  · simp [GameState.update, h]
  · simp [GameState.handleMouseClick, h]

/-- A concrete game-over state holding one shape, used by the C8 witness. -/
def finishedProbeState : GameState :=
  { entities := [hitProbeEntity], score := 7, timer := 0,
    isGameOver := true, colorOffset := 0 }

/-- Claim C8, witness: on a concrete game-over state, `update` and a click
at the shape's center are both no-ops. -/
theorem C8_witness :
    GameState.update finishedProbeState = finishedProbeState ∧
    finishedProbeState.handleMouseClick 100 100 probeChoice
      = finishedProbeState :=
  C8_frozen_after_gameover finishedProbeState 100 100 probeChoice rfl

/-- Claim C9: `increaseSpeed` multiplies both velocity components by
exactly 11/10 (the literal 1.1) for every prior value, and changes nothing
else about the shape. -/
theorem C9_boost_scales (e : Entity) :
    e.increaseSpeed.dx = e.dx * (11 / 10 : ℚ) ∧
    e.increaseSpeed.dy = e.dy * (11 / 10 : ℚ) ∧
    e.increaseSpeed.x = e.x ∧
    e.increaseSpeed.y = e.y ∧
    e.increaseSpeed.radius = e.radius ∧
    e.increaseSpeed.color = e.color ∧
    e.increaseSpeed.name = e.name ∧
    e.increaseSpeed.kind = e.kind :=
  ⟨rfl, rfl, rfl, rfl, rfl, rfl, rfl, rfl⟩

/-- Claim C10: `Loop.start()` unconditionally sets the running flag and
synchronously runs one step (one `update` and one `draw`), without checking
whether the loop already runs; when the loop is already running, a second
`start()` queues an additional independent step chain.  After the `Game`
constructor's `loop.start()` and the entry point's `game.start()`, two
chains are queued, and each animation frame then executes `update` and
`draw` twice, keeping two chains queued. -/
theorem C10_start_not_idempotent :
    (∀ s : LoopState, s.start.isRunning = true) ∧
    (∀ s : LoopState,
      s.start.updates = s.updates + 1 ∧ s.start.draws = s.draws + 1) ∧
    (∀ s : LoopState, s.isRunning = true →
      s.start.pending = s.pending + 1) ∧
    entryPointLoop.pending = 2 ∧
    entryPointLoop.frame.updates = entryPointLoop.updates + 2 ∧
    entryPointLoop.frame.draws = entryPointLoop.draws + 2 ∧
    entryPointLoop.frame.pending = 2 := by
  refine ⟨?_, ?_, ?_, by decide, by decide, by decide, by decide⟩
  · intro s
    simp [LoopState.start, LoopState.stepRun]
  · intro s
    constructor <;> simp [LoopState.start, LoopState.stepRun]
  · intro s _
    simp [LoopState.start, LoopState.stepRun]

/-- Claim C10, witness: the conditional conjunct applied to the concrete
already-running loop left by the `Game` constructor. -/
theorem C10_witness :
    gameConstructorLoop.start.pending = gameConstructorLoop.pending + 1 :=
  C10_start_not_idempotent.2.2.1 gameConstructorLoop (by decide)
